import Mathlib

/-
Verification of the MDM command generator CLI (tools/cmdr.py).

The script parses a subcommand (or -r, --random), builds an MDM command body
(a python dict), wraps it in an envelope {CommandUUID, Command} and dumps it
as a property list to standard output.

Shallow embedding conventions:
* python plist values that occur in a command body are modelled by `PValue`
  (strings, binary data, arrays of strings, python None);
* python dicts are modelled as association lists in insertion order;
* `argparse` results are modelled by `ParsedArgs` (which subcommand parsed,
  whether -r was given, the -u value if supplied);
* the two sources of nondeterminism, `uuid.uuid4()` and `random.choice`,
  are modelled by explicit parameters: the 128 random bits behind uuid4 and
  the index chosen by random.choice.
-/

/-- Property-list values occurring inside a command body dict:
python str, plistlib.Data (raw bytes), a list of str, and python None
(which is what `simple_command None` would put there on its unreachable
fallback path). -/
inductive PValue where
  | str : String → PValue
  | data : List Nat → PValue
  | strArray : List String → PValue
  | pynone : PValue
  deriving DecidableEq, Repr

/-- Values of the top-level envelope dict: the CommandUUID string and the
Command body dict. -/
inductive EValue where
  | str : String → EValue
  | dict : List (String × PValue) → EValue
  deriving DecidableEq, Repr

/-- Body of `simple_command(request_type)` from cmdr.py: the returned closure
receives the parsed args; if the captured `request_type` is None and the args
carry a `request_type` attribute (the generic "command" subcommand), that
value is used. The result is the dict \x7b"RequestType": request_type\x7d. -/
def simple_command (request_type : Option String) (args_request_type : Option String) :
    List (String × PValue) :=
  let rt :=
    match request_type with
    | some s => some s
    | none => args_request_type
  match rt with
  | some s => [("RequestType", PValue.str s)]
  | none => [("RequestType", PValue.pynone)]

/-- `install_profile(args)` from cmdr.py: `mobileconfig_bytes` is the result
of `args.mobileconfig.read()` on the file opened in binary mode. -/
def install_profile (mobileconfig_bytes : List Nat) : List (String × PValue) :=
  [("RequestType", PValue.str "InstallProfile"),
   ("Payload", PValue.data mobileconfig_bytes)]

/-- `remove_profile(args)` from cmdr.py. -/
def remove_profile (identifier : String) : List (String × PValue) :=
  [("RequestType", PValue.str "RemoveProfile"),
   ("Identifier", PValue.str identifier)]

/-- `dev_info(args)` from cmdr.py: `query` is `args.query` (nargs="*", so a
possibly empty list of strings); the Queries key is added only when the list
is truthy, i.e. nonempty. -/
def dev_info (query : List String) : List (String × PValue) :=
  let c := [("RequestType", PValue.str "DeviceInformation")]
  if query.isEmpty then c else c ++ [("Queries", PValue.strArray query)]

/-- The 21 parameterless subcommands registered by the loop in `main`
(lines 126-149 of cmdr.py), in registration order. -/
def fixed_commands : List String :=
  ["ProfileList", "ProvisioningProfileList", "CertificateList", "SecurityInfo",
   "RestartDevice", "ShutDownDevice", "StopMirroring", "ClearRestrictionsPassword",
   "UserList", "LogOutUser", "PlayLostModeSound", "DisableLostMode",
   "DeviceLocation", "ManagedMediaList", "DeviceConfigured", "AvailableOSUpdates",
   "NSExtensionMappings", "OSUpdateStatus", "EnableRemoteDesktop",
   "DisableRemoteDesktop", "ActivationLockBypassCode"]

/-- `read_only_commands` from `main` (lines 168-173). -/
def read_only_commands : List String :=
  ["SecurityInfo", "CertificateList", "ProfileList", "ProvisioningProfileList"]

/-- Which subcommand argparse selected, together with that subcommand's own
parsed arguments.  Each subparser of cmdr.py sets `args.func` to the matching
builder, so a parsed subcommand determines the builder. -/
inductive Subcommand where
  | simple (name : String)
  | deviceInformation (query : List String)
  | installProfile (mobileconfig_bytes : List Nat)
  | removeProfile (identifier : String)
  | generic (request_type : String)
  deriving DecidableEq, Repr

/-- Dispatch from the parsed subcommand to `args.func(args)`: the builder each
subparser installed via `set_defaults(func=...)`, applied to the parsed args.
Only the generic "command" subparser gives args a `request_type` attribute. -/
def run_subcommand : Subcommand → List (String × PValue)
  | Subcommand.simple name => simple_command (some name) none
  | Subcommand.deviceInformation query => dev_info query
  | Subcommand.installProfile b => install_profile b
  | Subcommand.removeProfile i => remove_profile i
  | Subcommand.generic rt => simple_command none (some rt)

/-- Hex digit characters as produced by python %x formatting (lowercase). -/
def hexDigit (n : Nat) : Char :=
  if n < 10 then Char.ofNat (48 + n) else Char.ofNat (87 + n)

/-- Big-endian, zero-padded hex rendering with exactly `width` digits; for
n < 16 ^ width this is python "%0<width>x" % n. -/
def toHexPad (n : Nat) : Nat → List Char
  | 0 => []
  | w + 1 => toHexPad (n / 16) w ++ [hexDigit (n % 16)]

/-- The 128-bit integer of `uuid.UUID(bytes=os.urandom(16), version=4)`:
the 16 random bytes (here `r % 2^128`) with the variant bits forced to 10
and the version nibble forced to 4, exactly as the `uuid.UUID` constructor
does. -/
def uuid4_int (r : Nat) : Nat :=
  let i0 := r % 2 ^ 128
  let i1 := (i0 &&& ((2 ^ 128 - 1) ^^^ (0xc000 <<< 48))) ||| (0x8000 <<< 48)
  (i1 &&& ((2 ^ 128 - 1) ^^^ (0xf000 <<< 64))) ||| (4 <<< 76)

/-- `str(uuid.uuid4())` for random bits `r`: the 32 lowercase hex digits of
the 128-bit value, with hyphens after digits 8, 12, 16 and 20. -/
def uuid4_str (r : Nat) : String :=
  let h := toHexPad (uuid4_int r) 32
  String.mk (h.take 8 ++ [Char.ofNat 45] ++ ((h.drop 8).take 4) ++ [Char.ofNat 45]
    ++ ((h.drop 12).take 4) ++ [Char.ofNat 45] ++ ((h.drop 16).take 4)
    ++ [Char.ofNat 45] ++ h.drop 20)

/-- Is `c` an ASCII hex digit (either case)? -/
def isHexChar (c : Char) : Bool :=
  (48 ≤ c.toNat && c.toNat ≤ 57) || (97 ≤ c.toNat && c.toNat ≤ 102)
    || (65 ≤ c.toNat && c.toNat ≤ 70)

/-- Character-wise check of the canonical 8-4-4-4-12 UUID layout, walking the
characters with their index: positions 8, 13, 18 and 23 hold a hyphen, all
others a hex digit. -/
def uuidCharsOK : Nat → List Char → Bool
  | _, [] => true
  | i, c :: rest =>
    (if i = 8 ∨ i = 13 ∨ i = 18 ∨ i = 23 then c = Char.ofNat 45 else isHexChar c)
      && uuidCharsOK (i + 1) rest

/-- Syntactic validity of a UUID string: 36 characters in the canonical
8-4-4-4-12 hyphenated hex layout. -/
def isValidUUID (s : String) : Bool :=
  decide (s.toList.length = 36) && uuidCharsOK 0 s.toList

/-- The argparse result relevant to `main`: the -u value when the user
supplied one (otherwise argparse falls back to the freshly generated default
`str(uuid.uuid4())`), the -r flag, and which subcommand (if any) parsed.
`args` has a `func` attribute exactly when `sub` is `some`. -/
structure ParsedArgs where
  uuid_opt : Option String
  random : Bool
  sub : Option Subcommand
  deriving DecidableEq, Repr

/-- Observable outcome of `main`: either `parser.print_help()` followed by
`sys.exit(code)` with no plist written, or a plist dump of the envelope dict
to standard output. -/
inductive MainResult where
  | helpExit (code : Nat)
  | output (envelope : List (String × EValue))
  deriving DecidableEq, Repr

/-- `random.choice(l)` with the random index supplied explicitly. -/
def random_choice (l : List String) (i : Nat) : String :=
  l.getD (i % l.length) ""

/-- `main()` of cmdr.py after argument parsing, with the uuid4 random bits
`r` and the random.choice index `i` passed explicitly: check the mutual
exclusion of subcommand and -r (exit 2 after printing help), otherwise on -r
select a random read-only command, then build the envelope
\x7b"CommandUUID": args.uuid, "Command": args.func(args)\x7d and dump it. -/
def run_main (args : ParsedArgs) (r : Nat) (i : Nat) : MainResult :=
  let uuidStr :=
    match args.uuid_opt with
    | some u => u
    | none => uuid4_str r
  if (args.sub = none ∧ args.random = false) ∨ (args.sub ≠ none ∧ args.random = true) then
    MainResult.helpExit 2
  else
    let body :=
      match args.sub with
      | some s => run_subcommand s
      | none => simple_command (some (random_choice read_only_commands i)) none
    MainResult.output [("CommandUUID", EValue.str uuidStr), ("Command", EValue.dict body)]

/-! ### Helper lemmas about hex rendering and the UUID layout -/

theorem toHexPad_length (n w : Nat) : (toHexPad n w).length = w := by
  induction w generalizing n with
  | zero => rfl
  | succ w ih => simp [toHexPad, ih]

theorem hexDigit_isHex : ∀ m, m < 16 → isHexChar (hexDigit m) = true := by decide

theorem toHexPad_hex (n w : Nat) : ∀ c ∈ toHexPad n w, isHexChar c = true := by
  induction w generalizing n with
  | zero => intro c hc; simp [toHexPad] at hc
  | succ w ih =>
    intro c hc
    simp only [toHexPad, List.mem_append, List.mem_singleton] at hc
    rcases hc with hc | hc
    · exact ih _ c hc
    · subst hc
      exact hexDigit_isHex _ (Nat.mod_lt _ (by decide))

theorem uuidCharsOK_append (i : Nat) (l1 l2 : List Char) :
    uuidCharsOK i (l1 ++ l2) = (uuidCharsOK i l1 && uuidCharsOK (i + l1.length) l2) := by
  induction l1 generalizing i with
  | nil => simp [uuidCharsOK]
  | cons c rest ih =>
    simp only [List.cons_append, uuidCharsOK, List.append_eq, List.length_cons, ih (i + 1)]
    have harith : i + (rest.length + 1) = i + 1 + rest.length := by omega
    rw [harith, Bool.and_assoc]

theorem uuidCharsOK_hexseg (l : List Char) :
    ∀ i, (∀ c ∈ l, isHexChar c = true) →
    (∀ j, i ≤ j → j < i + l.length → j ≠ 8 ∧ j ≠ 13 ∧ j ≠ 18 ∧ j ≠ 23) →
    uuidCharsOK i l = true := by
  induction l with
  | nil => intro i _ _; rfl
  | cons c rest ih =>
    intro i hhex hpos
    have h0 := hpos i (Nat.le_refl i) (by simp only [List.length_cons]; omega)
    unfold uuidCharsOK
    rw [if_neg (by simp only [not_or]; exact ⟨h0.1, h0.2.1, h0.2.2.1, h0.2.2.2⟩)]
    rw [hhex c (List.mem_cons_self c rest)]
    rw [Bool.true_and]
    exact ih (i + 1) (fun x hx => hhex x (List.mem_cons_of_mem c hx))
      (fun j hj1 hj2 => hpos j (by omega) (by simp only [List.length_cons]; omega))

theorem uuidCharsOK_of_pieces (a b c d e : List Char)
    (ha : a.length = 8) (hb : b.length = 4) (hc : c.length = 4) (hd : d.length = 4)
    (he : e.length = 12)
    (hxa : ∀ x ∈ a, isHexChar x = true) (hxb : ∀ x ∈ b, isHexChar x = true)
    (hxc : ∀ x ∈ c, isHexChar x = true) (hxd : ∀ x ∈ d, isHexChar x = true)
    (hxe : ∀ x ∈ e, isHexChar x = true) :
    uuidCharsOK 0 (a ++ [Char.ofNat 45] ++ b ++ [Char.ofNat 45] ++ c ++ [Char.ofNat 45]
      ++ d ++ [Char.ofNat 45] ++ e) = true := by
  rw [uuidCharsOK_append, uuidCharsOK_append, uuidCharsOK_append, uuidCharsOK_append,
    uuidCharsOK_append, uuidCharsOK_append, uuidCharsOK_append, uuidCharsOK_append]
  simp only [List.length_append, List.length_singleton, ha, hb, hc, hd, he, Bool.and_eq_true]
  refine ⟨⟨⟨⟨⟨⟨⟨⟨?_, ?_⟩, ?_⟩, ?_⟩, ?_⟩, ?_⟩, ?_⟩, ?_⟩, ?_⟩
  · exact uuidCharsOK_hexseg a 0 hxa (fun j h1 h2 => by rw [ha] at h2; omega)
  · decide
  · exact uuidCharsOK_hexseg b _ hxb (fun j h1 h2 => by rw [hb] at h2; omega)
  · decide
  · exact uuidCharsOK_hexseg c _ hxc (fun j h1 h2 => by rw [hc] at h2; omega)
  · decide
  · exact uuidCharsOK_hexseg d _ hxd (fun j h1 h2 => by rw [hd] at h2; omega)
  · decide
  · exact uuidCharsOK_hexseg e _ hxe (fun j h1 h2 => by rw [he] at h2; omega)

theorem uuid4_str_valid (r : Nat) : isValidUUID (uuid4_str r) = true := by
  unfold uuid4_str isValidUUID
  have hlen : (toHexPad (uuid4_int r) 32).length = 32 := toHexPad_length _ _
  have hhex : ∀ c ∈ toHexPad (uuid4_int r) 32, isHexChar c = true := toHexPad_hex _ _
  set h := toHexPad (uuid4_int r) 32 with hdef
  have htl : (String.mk (h.take 8 ++ [Char.ofNat 45] ++ ((h.drop 8).take 4)
      ++ [Char.ofNat 45] ++ ((h.drop 12).take 4) ++ [Char.ofNat 45]
      ++ ((h.drop 16).take 4) ++ [Char.ofNat 45] ++ h.drop 20)).toList
      = h.take 8 ++ [Char.ofNat 45] ++ ((h.drop 8).take 4) ++ [Char.ofNat 45]
        ++ ((h.drop 12).take 4) ++ [Char.ofNat 45] ++ ((h.drop 16).take 4)
        ++ [Char.ofNat 45] ++ h.drop 20 := rfl
  rw [htl]
  have l1 : (h.take 8).length = 8 := by simp [List.length_take, hlen]
  have l2 : ((h.drop 8).take 4).length = 4 := by simp [List.length_take, List.length_drop, hlen]
  have l3 : ((h.drop 12).take 4).length = 4 := by simp [List.length_take, List.length_drop, hlen]
  have l4 : ((h.drop 16).take 4).length = 4 := by simp [List.length_take, List.length_drop, hlen]
  have l5 : (h.drop 20).length = 12 := by simp [List.length_drop, hlen]
  rw [Bool.and_eq_true]
  constructor
  · simp only [List.length_append, l1, l2, l3, l4, l5, List.length_singleton]
    decide
  · exact uuidCharsOK_of_pieces _ _ _ _ _ l1 l2 l3 l4 l5
      (fun x hx => hhex x (List.mem_of_mem_take hx))
      (fun x hx => hhex x (List.mem_of_mem_drop (List.mem_of_mem_take hx)))
      (fun x hx => hhex x (List.mem_of_mem_drop (List.mem_of_mem_take hx)))
      (fun x hx => hhex x (List.mem_of_mem_drop (List.mem_of_mem_take hx)))
      (fun x hx => hhex x (List.mem_of_mem_drop hx))

/-! ### Shape of the emitted envelope -/

/-- Whenever `main` emits output, the envelope is the two-entry dict built at
lines 176-179 of cmdr.py: the CommandUUID (the -u value, or the generated
default) and the Command body produced by `args.func(args)`. -/
theorem run_main_output_inv (args : ParsedArgs) (r i : Nat) (env : List (String × EValue))
    (h : run_main args r i = MainResult.output env) :
    env = [("CommandUUID", EValue.str (match args.uuid_opt with
             | some u => u
             | none => uuid4_str r)),
           ("Command", EValue.dict (match args.sub with
             | some s => run_subcommand s
             | none => simple_command (some (random_choice read_only_commands i)) none))] := by
  by_cases hcond : (args.sub = none ∧ args.random = false) ∨ (args.sub ≠ none ∧ args.random = true)
  · exfalso
    simp only [run_main] at h
    rw [if_pos hcond] at h
    exact MainResult.noConfusion h
  · simp only [run_main] at h
    rw [if_neg hcond] at h
    injection h with h1
    exact h1.symm

/-! ### Claims -/

/-- C1 counterexample: the -u value is emitted verbatim with no validation,
so an invocation supplying a non-UUID string emits an envelope whose
CommandUUID is not a syntactically valid UUID. -/
theorem c1_counterexample :
    run_main ⟨some "not-a-uuid", false, some (Subcommand.simple "ProfileList")⟩ 0 0 =
      MainResult.output [("CommandUUID", EValue.str "not-a-uuid"),
        ("Command", EValue.dict [("RequestType", PValue.str "ProfileList")])] ∧
    isValidUUID "not-a-uuid" = false := by
  constructor
  · rfl
  · decide

/-- C1 (amended): for every invocation that emits output, if no -u value was
supplied then the emitted CommandUUID is the freshly generated
`str(uuid.uuid4())`, which is a syntactically valid UUID string; a
user-supplied -u value is emitted verbatim and is not validated. -/
theorem c1_generated_uuid_valid (args : ParsedArgs) (r i : Nat)
    (env : List (String × EValue)) (h : run_main args r i = MainResult.output env)
    (hu : args.uuid_opt = none) :
    env = [("CommandUUID", EValue.str (uuid4_str r)),
           ("Command", EValue.dict (match args.sub with
             | some s => run_subcommand s
             | none => simple_command (some (random_choice read_only_commands i)) none))]
      ∧ isValidUUID (uuid4_str r) = true := by
  have henv := run_main_output_inv args r i env h
  rw [hu] at henv
  exact ⟨henv, uuid4_str_valid r⟩

/-- C1 witness: invoking `ProfileList` with no -u and random bits 0 emits the
generated UUID 00000000-0000-4000-8000-000000000000, which is valid. -/
theorem c1_generated_uuid_valid_witness :
    [("CommandUUID", EValue.str "00000000-0000-4000-8000-000000000000"),
     ("Command", EValue.dict [("RequestType", PValue.str "ProfileList")])] =
      [("CommandUUID", EValue.str (uuid4_str 0)),
       ("Command", EValue.dict [("RequestType", PValue.str "ProfileList")])]
      ∧ isValidUUID (uuid4_str 0) = true :=
  c1_generated_uuid_valid ⟨none, false, some (Subcommand.simple "ProfileList")⟩ 0 0
    [("CommandUUID", EValue.str "00000000-0000-4000-8000-000000000000"),
     ("Command", EValue.dict [("RequestType", PValue.str "ProfileList")])]
    (by decide) rfl

/-- C2: invoking with both a subcommand and --random, or with neither, prints
the usage help and exits with status 2, emitting no property-list output. -/
theorem c2_mutual_exclusion (args : ParsedArgs) (r i : Nat)
    (h : (∃ s, args.sub = some s) ∧ args.random = true
        ∨ args.sub = none ∧ args.random = false) :
    run_main args r i = MainResult.helpExit 2 ∧
      ∀ env, run_main args r i ≠ MainResult.output env := by
  have hcond : (args.sub = none ∧ args.random = false)
      ∨ (args.sub ≠ none ∧ args.random = true) := by
    rcases h with ⟨⟨s, hs⟩, hr⟩ | ⟨hs, hr⟩
    · exact Or.inr ⟨by simp [hs], hr⟩
    · exact Or.inl ⟨hs, hr⟩
  have hmain : run_main args r i = MainResult.helpExit 2 := by
    simp only [run_main]
    rw [if_pos hcond]
  refine ⟨hmain, fun env hx => ?_⟩
  rw [hmain] at hx
  exact MainResult.noConfusion hx

/-- C2 witness: `ProfileList` together with --random exits with status 2. -/
theorem c2_mutual_exclusion_witness :
    run_main ⟨none, true, some (Subcommand.simple "ProfileList")⟩ 0 0 =
      MainResult.helpExit 2 :=
  (c2_mutual_exclusion ⟨none, true, some (Subcommand.simple "ProfileList")⟩ 0 0
    (Or.inl ⟨⟨Subcommand.simple "ProfileList", rfl⟩, rfl⟩)).1

/-- C3: for every request-type name, both on a fixed parameterless subcommand
and on the generic "command" subcommand with an arbitrary string, the built
body is exactly the one-entry dict with key RequestType and that name; no
validation happens on the generic path. -/
theorem c3_request_type_only (name rt : String) (a : Option String) :
    simple_command (some name) a = [("RequestType", PValue.str name)] ∧
    run_subcommand (Subcommand.simple name) = [("RequestType", PValue.str name)] ∧
    run_subcommand (Subcommand.generic rt) = [("RequestType", PValue.str rt)] :=
  ⟨rfl, rfl, rfl⟩

/-- C4: DeviceInformation with zero queries yields a body without a Queries
key; with a nonempty query list the body is RequestType followed by Queries
holding exactly the given strings in the given order. -/
theorem c4_dev_info_queries (q : List String) :
    dev_info [] = [("RequestType", PValue.str "DeviceInformation")] ∧
    ("Queries" ∉ (dev_info []).map Prod.fst) ∧
    (q ≠ [] → dev_info q =
      [("RequestType", PValue.str "DeviceInformation"),
       ("Queries", PValue.strArray q)]) := by
  refine ⟨rfl, by decide, fun hq => ?_⟩
  simp only [dev_info]
  rw [if_neg (by simp only [List.isEmpty_iff]; exact hq)]
  rfl

/-- C4 witness: queries Model, OSVersion are carried over in order. -/
theorem c4_dev_info_queries_witness :
    dev_info ["Model", "OSVersion"] =
      [("RequestType", PValue.str "DeviceInformation"),
       ("Queries", PValue.strArray ["Model", "OSVersion"])] :=
  (c4_dev_info_queries ["Model", "OSVersion"]).2.2 (by decide)

/-- C5: with --random and no explicit subcommand, the selected request type
is an element of the four read-only commands, whatever the random index, and
the emitted body carries exactly that request type. -/
theorem c5_random_read_only (args : ParsedArgs) (r i : Nat)
    (hr : args.random = true) (hs : args.sub = none) :
    random_choice read_only_commands i ∈ read_only_commands ∧
    run_main args r i = MainResult.output
      [("CommandUUID", EValue.str (match args.uuid_opt with
         | some u => u
         | none => uuid4_str r)),
       ("Command", EValue.dict
         [("RequestType", PValue.str (random_choice read_only_commands i))])] := by
  constructor
  · have h4 : i % 4 = 0 ∨ i % 4 = 1 ∨ i % 4 = 2 ∨ i % 4 = 3 := by omega
    have hlen : read_only_commands.length = 4 := rfl
    unfold random_choice
    rw [hlen]
    rcases h4 with h | h | h | h <;> rw [h] <;> decide
  · simp only [run_main]
    rw [if_neg (by simp [hs, hr])]
    rw [hs]
    rfl

/-- C5 witness: with random index 0 the choice is SecurityInfo, one of the
four read-only commands. -/
theorem c5_random_read_only_witness :
    "SecurityInfo" ∈ read_only_commands ∧
    run_main ⟨some "abc", true, none⟩ 0 0 = MainResult.output
      [("CommandUUID", EValue.str "abc"),
       ("Command", EValue.dict [("RequestType", PValue.str "SecurityInfo")])] :=
  c5_random_read_only ⟨some "abc", true, none⟩ 0 0 rfl rfl

/-- C6 counterexample: the registration loop in `main` iterates over 21
names, not 20. -/
theorem c6_counterexample :
    fixed_commands.length = 21 ∧ ¬(fixed_commands.length = 20) := by decide

/-- C6 (amended): the CLI registers exactly 21 fixed no-argument subcommands,
and each of them builds a body whose RequestType is exactly its own name. -/
theorem c6_fixed_commands (name : String) (h : name ∈ fixed_commands) :
    fixed_commands.length = 21 ∧
    run_subcommand (Subcommand.simple name) = [("RequestType", PValue.str name)] :=
  ⟨rfl, rfl⟩

/-- C6 witness: ProfileList is one of the 21 registered fixed subcommands. -/
theorem c6_fixed_commands_witness :
    fixed_commands.length = 21 ∧
    run_subcommand (Subcommand.simple "ProfileList") =
      [("RequestType", PValue.str "ProfileList")] :=
  c6_fixed_commands "ProfileList" (by decide)

/-- C7: InstallProfile embeds the file bytes read from the mobileconfig file
unchanged as the Payload, alongside RequestType InstallProfile. -/
theorem c7_install_profile_payload (bytes : List Nat) :
    install_profile bytes =
      [("RequestType", PValue.str "InstallProfile"), ("Payload", PValue.data bytes)] ∧
    run_subcommand (Subcommand.installProfile bytes) = install_profile bytes :=
  ⟨rfl, rfl⟩

/-- C8: when -u is supplied the emitted CommandUUID equals the supplied value
exactly; when it is absent the CommandUUID is the freshly generated
`str(uuid.uuid4())`, a valid UUID. -/
theorem c8_command_uuid (args : ParsedArgs) (r i : Nat) (env : List (String × EValue))
    (h : run_main args r i = MainResult.output env) :
    (∀ u, args.uuid_opt = some u →
      env.head? = some ("CommandUUID", EValue.str u)) ∧
    (args.uuid_opt = none →
      env.head? = some ("CommandUUID", EValue.str (uuid4_str r))
        ∧ isValidUUID (uuid4_str r) = true) := by
  have henv := run_main_output_inv args r i env h
  constructor
  · intro u hu
    rw [hu] at henv
    rw [henv]
    rfl
  · intro hu
    rw [hu] at henv
    rw [henv]
    exact ⟨rfl, uuid4_str_valid r⟩

/-- C8 witness: supplying -u my-uuid makes the envelope head carry exactly
that CommandUUID. -/
theorem c8_command_uuid_witness :
    ([("CommandUUID", EValue.str "my-uuid"),
      ("Command", EValue.dict (remove_profile "com.example.profile"))] :
        List (String × EValue)).head?
      = some ("CommandUUID", EValue.str "my-uuid") :=
  (c8_command_uuid
    ⟨some "my-uuid", false, some (Subcommand.removeProfile "com.example.profile")⟩ 0 0
    [("CommandUUID", EValue.str "my-uuid"),
     ("Command", EValue.dict (remove_profile "com.example.profile"))]
    (by rfl)).1 "my-uuid" rfl

/-- C9: RemoveProfile builds exactly the two-entry body RequestType
RemoveProfile, Identifier the given string, with no validation. -/
theorem c9_remove_profile_body (identifier : String) :
    remove_profile identifier =
      [("RequestType", PValue.str "RemoveProfile"),
       ("Identifier", PValue.str identifier)] ∧
    run_subcommand (Subcommand.removeProfile identifier) = remove_profile identifier :=
  ⟨rfl, rfl⟩

/-- C10: every emitted envelope is a dict with exactly the keys CommandUUID
and Command in that order, and the value under Command is exactly the body
returned by the selected builder (the parsed subcommand's builder, or the
randomly selected simple command when no subcommand was parsed). -/
theorem c10_envelope_shape (args : ParsedArgs) (r i : Nat) (env : List (String × EValue))
    (h : run_main args r i = MainResult.output env) :
    env.map Prod.fst = ["CommandUUID", "Command"] ∧
    env = [("CommandUUID", EValue.str (match args.uuid_opt with
             | some u => u
             | none => uuid4_str r)),
           ("Command", EValue.dict (match args.sub with
             | some s => run_subcommand s
             | none => simple_command (some (random_choice read_only_commands i)) none))] := by
  have henv := run_main_output_inv args r i env h
  subst henv
  exact ⟨rfl, rfl⟩

/-- C10 witness: a DeviceInformation invocation with -u u1 emits exactly the
two keys, with the Command value the dev_info body passed through. -/
theorem c10_envelope_shape_witness :
    ([("CommandUUID", EValue.str "u1"),
      ("Command", EValue.dict (dev_info ["Model"]))] :
        List (String × EValue)).map Prod.fst = ["CommandUUID", "Command"] ∧
    [("CommandUUID", EValue.str "u1"), ("Command", EValue.dict (dev_info ["Model"]))] =
      [("CommandUUID", EValue.str "u1"),
       ("Command", EValue.dict (dev_info ["Model"]))] :=
  c10_envelope_shape ⟨some "u1", false, some (Subcommand.deviceInformation ["Model"])⟩ 0 0
    [("CommandUUID", EValue.str "u1"), ("Command", EValue.dict (dev_info ["Model"]))]
    (by rfl)
